import Mathlib

/-!
Shallow embedding of the filesystem-compatibility helpers of
`src/bmaptools/BmapHelpers.py` (bmap-tools).

The Python module talks to the operating system (an `ioctl` call, `os.fstat`,
`os.path.ismount`, a spawned `df -T` process, a sysfs parameter file).  Each
of those interactions is modelled by an explicit environment value handed to
the embedded function: the function body itself is a direct translation of
the Python control flow.  Python exceptions become an `Except PyExc` result,
with `PyExc` separating the module's own `Error` class from the built-in
`IOError`, since the code raises both.
-/

namespace BmapHelpers

/-- The exception classes raised by the module: `moduleError` stands for the
module's single `Error(Exception)` class (BmapHelpers.py line 28), `ioError`
for Python's built-in `IOError`. -/
inductive PyExc where
  | moduleError (msg : String)
  | ioError (msg : String)
deriving DecidableEq

/-- Python whitespace, as used by `str.split(None)` and by `int()` stripping
(space, tab, newline, carriage return, vertical tab, form feed). -/
def isPySpace (c : Char) : Bool :=
  c == ' ' || c == '\t' || c == '\n' || c == '\r' || c == '\x0b' || c == '\x0c'

/-- Digit run to a natural number; `none` when empty or a non-digit occurs.
Models the digit part of CPython `int(str)` in base 10 (the optional digit
grouping underscores of CPython 3.6+ are omitted; no claim touches them). -/
def digitsToNat (ds : List Char) : Option Nat :=
  if ds.isEmpty then none
  else if ds.all (fun c => c.isDigit) then
    some (ds.foldl (fun acc c => 10 * acc + (c.toNat - 48)) 0)
  else none

/-- Model of CPython `int(s)` for a decimal string: strip surrounding
whitespace, allow one optional sign, then a non-empty digit run; `none`
models the `ValueError` CPython raises otherwise. -/
def pyInt (s : String) : Option Int :=
  let t := ((s.data.dropWhile isPySpace).reverse.dropWhile isPySpace).reverse
  match t with
  | '+' :: ds => (digitsToNat ds).map (fun n => (n : Int))
  | '-' :: ds => (digitsToNat ds).map (fun n => -(n : Int))
  | ds => (digitsToNat ds).map (fun n => (n : Int))

/-- Model of Python `str.lower()` (ASCII case mapping suffices here: `df`
emits ASCII filesystem type names). -/
def pyLower (s : String) : String :=
  String.mk (s.data.map Char.toLower)

/-- Worker for `splitlines`: accumulate the current line (reversed) and cut
at `\n`, `\r\n` or `\r`, like Python `bytes.splitlines`. -/
def splitlinesAux : List Char → List Char → List String
  | acc, [] => [String.mk acc.reverse]
  | acc, '\r' :: '\n' :: r =>
      String.mk acc.reverse :: (if r.isEmpty then [] else splitlinesAux [] r)
  | acc, '\n' :: r =>
      String.mk acc.reverse :: (if r.isEmpty then [] else splitlinesAux [] r)
  | acc, '\r' :: r =>
      String.mk acc.reverse :: (if r.isEmpty then [] else splitlinesAux [] r)
  | acc, c :: r => splitlinesAux (c :: acc) r

/-- Model of Python `splitlines()`: split on line boundaries, no trailing
empty line, empty input gives the empty list. -/
def splitlines (s : String) : List String :=
  if s.data.isEmpty then [] else splitlinesAux [] s.data

/-- Worker for `split(None, maxsplit)` on character lists.  Leading
whitespace is dropped; once `maxsplit` reaches zero the remainder (with its
leading whitespace dropped) is one final field, exactly as in CPython. -/
def pySplitWsAux : Nat → List Char → List (List Char)
  | maxsplit, cs =>
    match cs.dropWhile isPySpace, maxsplit with
    | [], _ => []
    | c :: rest, 0 => [c :: rest]
    | c :: rest, m + 1 =>
        (c :: rest).takeWhile (fun a => !isPySpace a)
          :: pySplitWsAux m ((c :: rest).dropWhile (fun a => !isPySpace a))

/-- Model of Python `s.split(None, maxsplit)`: split on whitespace runs with
at most `maxsplit` splits. -/
def pySplitWs (maxsplit : Nat) (s : String) : List String :=
  (pySplitWsAux maxsplit s.data).map String.mk

/-- Environment of one `get_block_size` call: the outcome of the `FIGETBSZ`
ioctl on the file object (an `IOError`, or the unpacked 32-bit value), and
the `st_blksize` field of `os.fstat` when the attribute exists. -/
structure FileEnv where
  ioctlResult : Except String Nat
  st_blksize : Option Nat

/-- The `except IOError` branch of `get_block_size` (BmapHelpers.py lines
76-81): take `st_blksize` from the fstat result when the attribute is
present, else raise `IOError("Unable to determine block size")`. -/
def blksize_fallback (env : FileEnv) : Except PyExc Nat :=
  match env.st_blksize with
  | some b => Except.ok b
  | none => Except.error (PyExc.ioError "Unable to determine block size")

/-- `get_block_size(file_obj)` (BmapHelpers.py lines 63-82): try the
`FIGETBSZ` ioctl; a zero result raises `IOError` inside the `try`, and any
`IOError` (ioctl failure or the zero case) falls through to the fstat
fallback. -/
def get_block_size (env : FileEnv) : Except PyExc Nat :=
  match env.ioctlResult with
  | Except.ok bsize => if bsize == 0 then blksize_fallback env else Except.ok bsize
  | Except.error _ => blksize_fallback env

/-- A readable regular file, as far as this module can observe it: POSIX
reports a positive preferred I/O block size (`st_blksize`) for a regular
file whenever the field is present. -/
def regularFileLike (env : FileEnv) : Prop :=
  ∀ b, env.st_blksize = some b → 0 < b

/-!
`get_mount_point(filepath)` (BmapHelpers.py lines 99-107).  A canonical
absolute path (the output of `os.path.realpath`) is modelled as its list of
components, the filesystem root `/` being `[]`.  The host's
`os.path.ismount` predicate is an arbitrary Boolean function on canonical
paths.  The loop step `f = os.path.realpath(os.path.join(f, os.pardir))`
drops the last component: `f` is fully resolved, so every prefix of it is a
symlink-free directory and resolving `f/..` is exactly `f` without its last
component.  The embedded function takes the already canonicalized input
path, i.e. `os.path.realpath(filepath)`.
-/

/-- `get_mount_point` on the canonicalized input path: while the path is not
the root, return it if it is a mount point, else move to the parent. -/
def get_mount_point (ismount : List String → Bool) : List String → List String
  | [] => []
  | a :: as =>
      if ismount (a :: as) then a :: as
      else get_mount_point ismount (a :: as).dropLast
termination_by f => f.length
decreasing_by simp [List.length_dropLast]

/-- The `while` loop of `get_mount_point` written literally with an
iteration budget: `none` means the budget was exhausted before the loop
returned.  Used to state that the loop terminates within `depth + 1`
iterations. -/
def mount_point_loop (ismount : List String → Bool) : Nat → List String → Option (List String)
  | 0, _ => none
  | fuel + 1, f =>
      if f = [] then some []
      else if ismount f then some f
      else mount_point_loop ismount fuel f.dropLast

/-- `get_file_system_type(filepath)` (BmapHelpers.py lines 110-129), given
the captured `stdout` and `stderr` of the spawned `df -T -- <realpath>`
process.  The Python truthiness tests are explicit: `if stdout:` is the
non-emptiness test, `if not ftype:` catches both `None` and an empty
string. -/
def get_file_system_type (stdout stderr : String) : Except PyExc String :=
  let ftype : Option String :=
    if stdout = "" then none
    else
      let t := splitlines stdout
      if 2 ≤ t.length then
        let fields := pySplitWs 2 (t.getD 1 "")
        if 2 ≤ fields.length then some (pyLower (fields.getD 1 "")) else none
      else none
  match ftype with
  | some s =>
      if s = "" then Except.error (PyExc.moduleError ("no file system type was found: " ++ stderr))
      else Except.ok s
  | none => Except.error (PyExc.moduleError ("no file system type was found: " ++ stderr))

/-- `get_zfs_compat_param_path()` (BmapHelpers.py lines 132-137). -/
def get_zfs_compat_param_path : String :=
  "/sys/module/zfs/parameters/zfs_dmu_offset_next_sync"

/-- Environment of one `is_zfs_compatible` call: whether
`os.path.isfile` holds of the parameter path, and the outcome of opening the
file and reading its first line (`Except.error` models an `IOError` from
`open`/`readline`, carrying its message). -/
structure ZfsEnv where
  paramIsFile : Bool
  readFirstLine : Except String String

/-- `is_zfs_compatible()` (BmapHelpers.py lines 140-155): if the parameter
file exists, read its first line and compare `int(line)` with 1; an
`IOError` or `ValueError` inside the `try` is re-raised as the module's
`Error`.  A missing file returns `False`. -/
def is_zfs_compatible (env : ZfsEnv) : Except PyExc Bool :=
  if env.paramIsFile then
    match env.readFirstLine with
    | Except.error err =>
        Except.error (PyExc.moduleError
          ("cannot open zfs param path " ++ get_zfs_compat_param_path ++ ": " ++ err))
    | Except.ok line =>
        match pyInt line with
        | none =>
            Except.error (PyExc.moduleError
              ("invalid value read from param path " ++ get_zfs_compat_param_path))
        | some n => Except.ok (n == 1)
  else Except.ok false

/-- `is_compatible_file_system(filepath)` (BmapHelpers.py lines 158-167):
detect the filesystem type of the path (via the `df` output in the
environment); on `"zfs"` defer to `is_zfs_compatible`, otherwise return
`True`. -/
def is_compatible_file_system (dfStdout dfStderr : String) (zenv : ZfsEnv) : Except PyExc Bool :=
  match get_file_system_type dfStdout dfStderr with
  | Except.error e => Except.error e
  | Except.ok t => if t = "zfs" then is_zfs_compatible zenv else Except.ok true

/-! ### Helper lemmas -/

/-- A string built from a non-empty character list is non-empty. -/
theorem mk_ne_empty (w : List Char) (hw : w ≠ []) : String.mk w ≠ "" := by
  intro h
  exact hw (congrArg String.data h)

/-- A non-empty string has a non-empty character list. -/
theorem data_ne_nil_of_ne_empty (s : String) (hs : s ≠ "") : s.data ≠ [] := by
  intro h
  apply hs
  obtain ⟨data⟩ := s
  subst h
  rfl

/-- Lowercasing preserves non-emptiness. -/
theorem pyLower_ne_empty (s : String) (hs : s ≠ "") : pyLower s ≠ "" := by
  unfold pyLower
  apply mk_ne_empty
  simp only [ne_eq, List.map_eq_nil_iff]
  exact data_ne_nil_of_ne_empty s hs

/-- The head surviving a `dropWhile` falsifies the predicate. -/
theorem dropWhile_head_false {α : Type} {p : α → Bool} :
    ∀ (l : List α) (c : α) (rest : List α), l.dropWhile p = c :: rest → p c = false := by
  intro l
  induction l with
  | nil => intro c rest h; simp at h
  | cons a as ih =>
    intro c rest h
    rw [List.dropWhile_cons] at h
    split at h
    · exact ih _ _ h
    · rename_i hp
      injection h with h1 _
      subst h1
      simpa using hp

/-- Whitespace splitting never produces an empty field (each field either
starts with a non-whitespace character or is the non-empty remainder). -/
theorem pySplitWsAux_mem_ne_nil :
    ∀ (m : Nat) (cs : List Char) (w : List Char), w ∈ pySplitWsAux m cs → w ≠ [] := by
  intro m
  induction m with
  | zero =>
    intro cs w hw
    unfold pySplitWsAux at hw
    split at hw
    · exact absurd hw (List.not_mem_nil w)
    · simp only [List.mem_singleton] at hw
      subst hw
      simp
    · rename_i heq
      exact absurd heq.symm (Nat.succ_ne_zero _)
  | succ m ih =>
    intro cs w hw
    unfold pySplitWsAux at hw
    split at hw
    · exact absurd hw (List.not_mem_nil w)
    · rename_i heq
      exact absurd heq (Nat.succ_ne_zero m)
    · rename_i c rest m2 heq1 heq2
      injection heq2 with hm
      subst hm
      simp only [List.mem_cons] at hw
      rcases hw with hw | hw
      · have hc := dropWhile_head_false _ _ _ heq1
        subst hw
        rw [List.takeWhile_cons_of_pos (by simp [hc])]
        simp
      · exact ih _ _ hw

/-- Every field of a `split(None, m)` result is a non-empty string. -/
theorem pySplitWs_mem_ne_empty (m : Nat) (s : String) (w : String)
    (hw : w ∈ pySplitWs m s) : w ≠ "" := by
  unfold pySplitWs at hw
  rcases List.mem_map.mp hw with ⟨l, hl, he⟩
  rw [← he]
  exact mk_ne_empty l (pySplitWsAux_mem_ne_nil m s.data l hl)

/-- An in-range field of a `split(None, m)` result is non-empty. -/
theorem pySplitWs_getD_ne_empty (m n : Nat) (s : String)
    (h : n < (pySplitWs m s).length) : (pySplitWs m s).getD n "" ≠ "" := by
  have hmem : (pySplitWs m s).getD n "" ∈ pySplitWs m s := by
    rw [List.getD_eq_getElem?_getD, List.getElem?_eq_getElem h]
    exact List.getElem_mem h
  exact pySplitWs_mem_ne_empty m s _ hmem

/-- Resolving the filesystem root returns the root without consulting the
mount predicate. -/
theorem get_mount_point_nil (ismount : List String → Bool) : get_mount_point ismount [] = [] := by
  unfold get_mount_point
  rfl

/-- One unfolding of `get_mount_point` on a non-root path. -/
theorem get_mount_point_cons (ismount : List String → Bool) (a : String) (as : List String) :
    get_mount_point ismount (a :: as) =
      if ismount (a :: as) then a :: as
      else get_mount_point ismount (a :: as).dropLast := by
  rw [get_mount_point]

/-- Main invariant of the ancestor walk: the result is an ancestor of (or
equal to) the input, and it is a mount point unless it is the root. -/
theorem get_mount_point_key (ismount : List String → Bool) :
    ∀ (n : Nat) (f : List String), f.length ≤ n →
      (∃ rest, f = get_mount_point ismount f ++ rest) ∧
      (ismount (get_mount_point ismount f) = true ∨ get_mount_point ismount f = []) := by
  intro n
  induction n with
  | zero =>
    intro f hf
    have hf0 : f = [] := List.eq_nil_of_length_eq_zero (Nat.le_zero.mp hf)
    subst hf0
    exact ⟨⟨[], by simp [get_mount_point_nil]⟩, Or.inr (get_mount_point_nil ismount)⟩
  | succ n ih =>
    intro f hf
    match f with
    | [] => exact ⟨⟨[], by simp [get_mount_point_nil]⟩, Or.inr (get_mount_point_nil ismount)⟩
    | a :: as =>
      by_cases hm : ismount (a :: as) = true
      · rw [get_mount_point_cons, if_pos hm]
        exact ⟨⟨[], by simp⟩, Or.inl hm⟩
      · rw [get_mount_point_cons, if_neg hm]
        have hlen : (a :: as).dropLast.length ≤ n := by
          simp only [List.length_dropLast, List.length_cons]
          simp only [List.length_cons] at hf
          omega
        obtain ⟨⟨rest, hrest⟩, hmt⟩ := ih (a :: as).dropLast hlen
        refine ⟨⟨rest ++ [(a :: as).getLast (by simp)], ?_⟩, hmt⟩
        conv_lhs => rw [← List.dropLast_append_getLast (l := a :: as) (by simp), hrest]
        simp [List.append_assoc]

/-- The literal `while` loop agrees with the recursive definition whenever
its iteration budget exceeds the path depth. -/
theorem mount_point_loop_bound (ismount : List String → Bool) :
    ∀ (fuel : Nat) (f : List String), f.length < fuel →
      mount_point_loop ismount fuel f = some (get_mount_point ismount f) := by
  intro fuel
  induction fuel with
  | zero => intro f h; exact absurd h (Nat.not_lt_zero _)
  | succ n ih =>
    intro f h
    match f with
    | [] => simp [mount_point_loop, get_mount_point_nil]
    | a :: as =>
      by_cases hm : ismount (a :: as) = true
      · simp [mount_point_loop, hm, get_mount_point_cons]
      · have hlen : (a :: as).dropLast.length < n := by
          simp only [List.length_dropLast, List.length_cons]
          simp only [List.length_cons] at h
          omega
        simp only [mount_point_loop]
        rw [if_neg (by simp), if_neg hm, ih _ hlen, get_mount_point_cons, if_neg hm]

/-- The fstat fallback of `get_block_size` returns a positive size on a
regular-file environment. -/
theorem blksize_fallback_pos (env : FileEnv) (hreg : regularFileLike env) (n : Nat)
    (h : blksize_fallback env = Except.ok n) : 0 < n := by
  unfold blksize_fallback at h
  split at h
  · rename_i b hb
    injection h with h1
    subst h1
    exact hreg b hb
  · simp at h

/-- `get_file_system_type` on well-formed `df` output: at least two lines
and at least two fields on the data row give the lowercased second field. -/
theorem gfst_success_eq (stdout stderr : String)
    (h2 : 2 ≤ (splitlines stdout).length)
    (hf : 2 ≤ (pySplitWs 2 ((splitlines stdout).getD 1 "")).length) :
    get_file_system_type stdout stderr =
      Except.ok (pyLower ((pySplitWs 2 ((splitlines stdout).getD 1 "")).getD 1 "")) := by
  have hne : stdout ≠ "" := by
    intro h0
    rw [h0] at h2
    simp [splitlines] at h2
  have hfne : (pySplitWs 2 ((splitlines stdout).getD 1 "")).getD 1 "" ≠ "" :=
    pySplitWs_getD_ne_empty 2 1 _ (by omega)
  have hlne := pyLower_ne_empty _ hfne
  simp only [get_file_system_type]
  rw [if_neg hne, if_pos h2, if_pos hf]
  simp only []
  rw [if_neg hlne]

/-! ### Claim theorems -/

/-- Claim C1: whenever `get_file_system_type` succeeds with type `t`,
`is_compatible_file_system` returns `is_zfs_compatible()` exactly when
`t = "zfs"`, and returns `True` unconditionally for every other `t`,
regardless of the ZFS parameter file's state (the quantified `zenv`). -/
theorem is_compatible_file_system_cases (dfStdout dfStderr : String) (zenv : ZfsEnv)
    (t : String) (h : get_file_system_type dfStdout dfStderr = Except.ok t) :
    (t = "zfs" → is_compatible_file_system dfStdout dfStderr zenv = is_zfs_compatible zenv) ∧
    (t ≠ "zfs" → is_compatible_file_system dfStdout dfStderr zenv = Except.ok true) := by
  constructor
  · intro ht
    unfold is_compatible_file_system
    rw [h, ht]
    show (if ("zfs" : String) = "zfs" then is_zfs_compatible zenv else Except.ok true) =
      is_zfs_compatible zenv
    rw [if_pos rfl]
  · intro ht
    unfold is_compatible_file_system
    rw [h]
    show (if t = "zfs" then is_zfs_compatible zenv else Except.ok true) = Except.ok true
    rw [if_neg ht]

/-- Witness for C1: `df` reporting a zfs filesystem defers to the ZFS
checker. -/
theorem is_compatible_file_system_cases_witness :
    get_file_system_type "h\nd zfs x" "" = Except.ok "zfs" ∧
    is_compatible_file_system "h\nd zfs x" "" ⟨true, Except.ok "0"⟩ =
      is_zfs_compatible ⟨true, Except.ok "0"⟩ :=
  ⟨rfl, (is_compatible_file_system_cases "h\nd zfs x" "" ⟨true, Except.ok "0"⟩ "zfs" rfl).1 rfl⟩

/-- Claim C2: `is_zfs_compatible` returns `True` iff the parameter file
exists and its first line parses as the integer 1; a missing file returns
`False` without error; and an error is raised exactly when the file exists
but opening fails or the first line is not a parseable integer. -/
theorem is_zfs_compatible_spec (env : ZfsEnv) :
    (is_zfs_compatible env = Except.ok true ↔
      env.paramIsFile = true ∧ ∃ l, env.readFirstLine = Except.ok l ∧ pyInt l = some 1) ∧
    (env.paramIsFile = false → is_zfs_compatible env = Except.ok false) ∧
    ((∃ e, is_zfs_compatible env = Except.error e) ↔
      env.paramIsFile = true ∧
        ((∃ m, env.readFirstLine = Except.error m) ∨
          ∃ l, env.readFirstLine = Except.ok l ∧ pyInt l = none)) := by
  obtain ⟨p, r⟩ := env
  cases p
  · simp [is_zfs_compatible]
  · cases r with
    | error m => simp [is_zfs_compatible]
    | ok line =>
      cases hpi : pyInt line with
      | none => simp [is_zfs_compatible, hpi]
      | some k => simp [is_zfs_compatible, hpi, beq_iff_eq]

/-- Witness for C2: a missing parameter file yields `False` without
raising. -/
theorem is_zfs_compatible_spec_witness :
    (ZfsEnv.mk false (Except.ok "1")).paramIsFile = false ∧
    is_zfs_compatible ⟨false, Except.ok "1"⟩ = Except.ok false :=
  ⟨rfl, (is_zfs_compatible_spec ⟨false, Except.ok "1"⟩).2.1 rfl⟩

/-- Claim C3: on a readable regular file (the OS reports a positive
`st_blksize` whenever the field is present), every successful
`get_block_size` result is strictly positive — on the ioctl path a zero
value is rejected by the code itself, and on the fallback path the value is
the positive `st_blksize`. -/
theorem get_block_size_pos (env : FileEnv) (hreg : regularFileLike env)
    (n : Nat) (h : get_block_size env = Except.ok n) : 0 < n := by
  unfold get_block_size at h
  split at h
  · rename_i bsize heq
    split at h
    · exact blksize_fallback_pos env hreg n h
    · rename_i hbz
      injection h with h1
      subst h1
      have hnz : bsize ≠ 0 := by simpa using hbz
      omega
  · exact blksize_fallback_pos env hreg n h

/-- Witness for C3: a failing ioctl with `st_blksize = 4096` yields the
positive 4096. -/
theorem get_block_size_pos_witness :
    regularFileLike ⟨Except.error "boom", some 4096⟩ ∧ 0 < 4096 := by
  have hreg : regularFileLike ⟨Except.error "boom", some 4096⟩ := by
    intro b hb
    injection hb with h1
    omega
  exact ⟨hreg, get_block_size_pos ⟨Except.error "boom", some 4096⟩ hreg 4096 rfl⟩

/-- Claim C4: when the `df` standard output has at least two lines and the
second line has at least two whitespace-separated fields,
`get_file_system_type` returns the lowercased second field of that second
line. -/
theorem get_file_system_type_success (stdout stderr : String)
    (h2 : 2 ≤ (splitlines stdout).length)
    (hf : 2 ≤ (pySplitWs 2 ((splitlines stdout).getD 1 "")).length) :
    get_file_system_type stdout stderr =
      Except.ok (pyLower ((pySplitWs 2 ((splitlines stdout).getD 1 "")).getD 1 "")) :=
  gfst_success_eq stdout stderr h2 hf

/-- Witness for C4: a header line plus a data row with three fields gives
the second field, lowercased. -/
theorem get_file_system_type_success_witness :
    2 ≤ (splitlines "h\nd EXT4 x").length ∧
    2 ≤ (pySplitWs 2 ((splitlines "h\nd EXT4 x").getD 1 "")).length ∧
    get_file_system_type "h\nd EXT4 x" "" = Except.ok "ext4" :=
  ⟨by decide, by decide, get_file_system_type_success "h\nd EXT4 x" "" (by decide) (by decide)⟩

/-- Claim C5: `get_file_system_type` raises an error carrying the command's
standard-error text exactly when the output yields no usable type (empty
stdout, fewer than two lines, a data row with fewer than two fields, or an
empty type field), and in every other case succeeds with a non-empty
type. -/
theorem get_file_system_type_error_iff (stdout stderr : String) :
    ((∃ e, get_file_system_type stdout stderr = Except.error e) ↔
      (stdout = "" ∨ (splitlines stdout).length < 2 ∨
        (pySplitWs 2 ((splitlines stdout).getD 1 "")).length < 2 ∨
        pyLower ((pySplitWs 2 ((splitlines stdout).getD 1 "")).getD 1 "") = "")) ∧
    (∀ e, get_file_system_type stdout stderr = Except.error e →
      e = PyExc.moduleError ("no file system type was found: " ++ stderr)) ∧
    (∀ t, get_file_system_type stdout stderr = Except.ok t → t ≠ "") := by
  by_cases h0 : stdout = ""
  · have hval : get_file_system_type stdout stderr =
        Except.error (PyExc.moduleError ("no file system type was found: " ++ stderr)) := by
      subst h0
      rfl
    refine ⟨⟨fun _ => Or.inl h0, fun _ => ⟨_, hval⟩⟩, ?_, ?_⟩
    · intro e he
      rw [hval] at he
      injection he with h1
      exact h1.symm
    · intro t ht
      rw [hval] at ht
      simp at ht
  · by_cases h2 : 2 ≤ (splitlines stdout).length
    · by_cases hf : 2 ≤ (pySplitWs 2 ((splitlines stdout).getD 1 "")).length
      · have hfne : (pySplitWs 2 ((splitlines stdout).getD 1 "")).getD 1 "" ≠ "" :=
          pySplitWs_getD_ne_empty 2 1 _ (by omega)
        have hlne := pyLower_ne_empty _ hfne
        have hval := gfst_success_eq stdout stderr h2 hf
        refine ⟨?_, ?_, ?_⟩
        · constructor
          · rintro ⟨e, he⟩
            rw [hval] at he
            simp at he
          · intro hcond
            rcases hcond with hc | hc | hc | hc
            · exact absurd hc h0
            · omega
            · omega
            · exact absurd hc hlne
        · intro e he
          rw [hval] at he
          simp at he
        · intro t ht
          rw [hval] at ht
          injection ht with h1
          exact h1 ▸ hlne
      · have hval : get_file_system_type stdout stderr =
            Except.error (PyExc.moduleError ("no file system type was found: " ++ stderr)) := by
          simp only [get_file_system_type]
          rw [if_neg h0, if_pos h2, if_neg hf]
        refine ⟨⟨fun _ => Or.inr (Or.inr (Or.inl (by omega))), fun _ => ⟨_, hval⟩⟩, ?_, ?_⟩
        · intro e he
          rw [hval] at he
          injection he with h1
          exact h1.symm
        · intro t ht
          rw [hval] at ht
          simp at ht
    · have hval : get_file_system_type stdout stderr =
          Except.error (PyExc.moduleError ("no file system type was found: " ++ stderr)) := by
        simp only [get_file_system_type]
        rw [if_neg h0, if_neg h2]
      refine ⟨⟨fun _ => Or.inr (Or.inl (by omega)), fun _ => ⟨_, hval⟩⟩, ?_, ?_⟩
      · intro e he
        rw [hval] at he
        injection he with h1
        exact h1.symm
      · intro t ht
        rw [hval] at ht
        simp at ht

/-- Witness for C5: header-only output (a single line) is an error. -/
theorem get_file_system_type_error_iff_witness :
    ∃ e, get_file_system_type "header only" "boom" = Except.error e :=
  (get_file_system_type_error_iff "header only" "boom").1.mpr (Or.inr (Or.inl (by decide)))

/-- Claim C6: a failing ioctl, or an ioctl result of zero, makes
`get_block_size` take its result from the fstat fallback — `st_blksize`
when present — and an `IOError` is raised only when that field is also
unavailable. -/
theorem get_block_size_fallback_spec (env : FileEnv)
    (h : (∃ m, env.ioctlResult = Except.error m) ∨ env.ioctlResult = Except.ok 0) :
    get_block_size env = blksize_fallback env ∧
    (∀ b, env.st_blksize = some b → get_block_size env = Except.ok b) ∧
    (∀ e, get_block_size env = Except.error e →
      env.st_blksize = none ∧ e = PyExc.ioError "Unable to determine block size") := by
  have hgb : get_block_size env = blksize_fallback env := by
    unfold get_block_size
    rcases h with ⟨m, hm⟩ | hz
    · rw [hm]
    · rw [hz]
      rfl
  refine ⟨hgb, ?_, ?_⟩
  · intro b hb
    rw [hgb]
    unfold blksize_fallback
    rw [hb]
  · intro e he
    rw [hgb] at he
    unfold blksize_fallback at he
    split at he
    · simp at he
    · rename_i hnone
      injection he with h1
      exact ⟨hnone, h1.symm⟩

/-- Witness for C6: an ioctl result of zero falls back to
`st_blksize = 512`. -/
theorem get_block_size_fallback_spec_witness :
    ((∃ m, (FileEnv.mk (Except.ok 0) (some 512)).ioctlResult = Except.error m) ∨
      (FileEnv.mk (Except.ok 0) (some 512)).ioctlResult = Except.ok 0) ∧
    get_block_size ⟨Except.ok 0, some 512⟩ = Except.ok 512 :=
  ⟨Or.inr rfl, (get_block_size_fallback_spec ⟨Except.ok 0, some 512⟩ (Or.inr rfl)).2.1 512 rfl⟩

/-- Claim C7: `get_mount_point` returns an ancestor of (or equal to) the
canonicalized input path, the returned path satisfies the mount-point
predicate or is the filesystem root, and resolving the root returns the
root itself. -/
theorem get_mount_point_ancestor_mount (ismount : List String → Bool) (f : List String) :
    (∃ rest, f = get_mount_point ismount f ++ rest) ∧
    (ismount (get_mount_point ismount f) = true ∨ get_mount_point ismount f = []) ∧
    get_mount_point ismount [] = [] := by
  obtain ⟨h1, h2⟩ := get_mount_point_key ismount f.length f (Nat.le_refl _)
  exact ⟨h1, h2, get_mount_point_nil ismount⟩

/-- Claim C8: the ancestor-walk loop of `get_mount_point` terminates on
every input: run with an iteration budget of `depth + 1` guard checks (at
most `depth` parent steps), the literal `while` loop returns, and agrees
with the total recursive function. -/
theorem get_mount_point_loop_terminates (ismount : List String → Bool) (f : List String) :
    mount_point_loop ismount (f.length + 1) f = some (get_mount_point ismount f) :=
  mount_point_loop_bound ismount (f.length + 1) f (Nat.lt_succ_self _)

/-- Claim C9: every error of `get_file_system_type` and of
`is_zfs_compatible` is the module's single `Error` class (so the two error
kinds share one exception type), while `get_block_size` signals failure as
`IOError`, never as `Error`. -/
theorem error_exception_kinds :
    (∀ stdout stderr e, get_file_system_type stdout stderr = Except.error e →
      ∃ m, e = PyExc.moduleError m) ∧
    (∀ (env : ZfsEnv) (e : PyExc), is_zfs_compatible env = Except.error e →
      ∃ m, e = PyExc.moduleError m) ∧
    (∀ (env : FileEnv) (e : PyExc), get_block_size env = Except.error e →
      ∃ m, e = PyExc.ioError m) := by
  refine ⟨?_, ?_, ?_⟩
  · intro stdout stderr e he
    simp only [get_file_system_type] at he
    split at he
    · rename_i s heq
      split at he
      · injection he with h1
        exact ⟨_, h1.symm⟩
      · simp at he
    · injection he with h1
      exact ⟨_, h1.symm⟩
  · intro env e he
    unfold is_zfs_compatible at he
    split at he
    · split at he
      · injection he with h1
        exact ⟨_, h1.symm⟩
      · split at he
        · injection he with h1
          exact ⟨_, h1.symm⟩
        · simp at he
    · simp at he
  · intro env e he
    unfold get_block_size at he
    split at he
    · split at he
      · unfold blksize_fallback at he
        split at he
        · simp at he
        · injection he with h1
          exact ⟨_, h1.symm⟩
      · simp at he
    · unfold blksize_fallback at he
      split at he
      · simp at he
      · injection he with h1
        exact ⟨_, h1.symm⟩

/-- Witness for C9: one concrete error of each function, classified. -/
theorem error_exception_kinds_witness :
    (∃ m, PyExc.moduleError ("no file system type was found: " ++ "boom") =
      PyExc.moduleError m) ∧
    (∃ m, PyExc.moduleError
        ("cannot open zfs param path " ++ get_zfs_compat_param_path ++ ": " ++ "denied") =
      PyExc.moduleError m) ∧
    (∃ m, PyExc.ioError "Unable to determine block size" = PyExc.ioError m) :=
  ⟨error_exception_kinds.1 "" "boom" _ rfl,
   error_exception_kinds.2.1 ⟨true, Except.error "denied"⟩ _ rfl,
   error_exception_kinds.2.2 ⟨Except.error "x", none⟩ _ rfl⟩

/-- Claim C10: `get_mount_point` is idempotent — applying it to its own
result returns that result unchanged, since the result is a canonical path
that is either a mount point or the root. -/
theorem get_mount_point_idem (ismount : List String → Bool) (f : List String) :
    get_mount_point ismount (get_mount_point ismount f) = get_mount_point ismount f := by
  obtain ⟨-, hmt⟩ := get_mount_point_key ismount f.length f (Nat.le_refl _)
  rcases hmt with h | h
  · cases hg : get_mount_point ismount f with
    | nil => rw [get_mount_point_nil]
    | cons a as =>
      rw [get_mount_point_cons, if_pos (hg ▸ h)]
  · rw [h, get_mount_point_nil]

end BmapHelpers
